import Mathlib

/- Verification of the FocusCC / CharmCC frame-processing and event-detection
pipeline. The repository ships several UI variants around the same core logic:

  * edge-density variants: cc.py, cc_110.py, versions/v3/cc.py,
    versions/v3/ccqt.py (Canny edge count vs. a count threshold);
  * mean-intensity variants: ccm_100.py, versions/v3/ccm.py
    (mean grayscale intensity vs. an intensity threshold).

Each definition below is a shallow embedding of one piece of that Python code.
Timestamps and intensity means are modelled as rationals, pixel channel values
as Fin 256 (uint8), and fallible operations return Option. Functions from the
external cv2 library whose code is not part of the repository (HSV colour
conversion, text drawing) are taken as explicit function parameters of the
embedded definitions, so every theorem quantifies over their behaviour. -/

namespace FocusCC

/- ===================== Cooldown gates (C1) ===================== -/

/-- Cooldown gate of the edge-density variants. Mirrors
`cc.py` line 91 / `cc_110.py` line 100 / `versions/v3/cc.py` line 116 /
`versions/v3/ccqt.py` line 538:
`event_detected and (not cooldown_enabled or (current_time - last_event_time) > cooldown)`. -/
def edge_gate (event_detected cooldown_enabled : Bool)
    (current_time last_event_time cooldown : ℚ) : Bool :=
  event_detected && (!cooldown_enabled || decide (current_time - last_event_time > cooldown))

/-- Cooldown gate of the mean-intensity variants. Mirrors `ccm_100.py`
lines 375-376 / `versions/v3/ccm.py` lines 455-456:
`if mean_val > threshold:` then `if current_time - last_saved_time >= cooldown_time:`.
Note the non-strict `>=` here, unlike the strict `>` of `edge_gate`. -/
def ccm_gate (mean_val threshold current_time last_saved_time cooldown_time : ℚ) : Bool :=
  decide (mean_val > threshold) && decide (current_time - last_saved_time ≥ cooldown_time)

/- ===================== Region mask (C2) ===================== -/

/-- Region-of-interest masking of the edge map. Mirrors
`versions/v3/cc.py` lines 108-112 / `versions/v3/ccqt.py` lines 529-533:
`edges[:y1, :] = 0; edges[y2:, :] = 0; edges[:, :x1] = 0; edges[:, x2:] = 0`
(numpy slice semantics for non-negative indices: a pixel at row `y`, column `x`
survives iff `y1 ≤ y < y2` and `x1 ≤ x < x2`). Total by construction: no
coordinate combination raises. -/
def mask_edges (edges : Nat → Nat → Nat) (x1 y1 x2 y2 : Nat) : Nat → Nat → Nat :=
  fun y x =>
    if y < y1 then 0
    else if y2 ≤ y then 0
    else if x < x1 then 0
    else if x2 ≤ x then 0
    else edges y x

/-- Count of non-zero edge pixels over a `width × height` grid. Mirrors
`np.sum(edges > 0)` in `update_feed`. -/
def edge_count (width height : Nat) (edges : Nat → Nat → Nat) : Nat :=
  (Finset.range height).sum fun y =>
    (Finset.range width).sum fun x => if 0 < edges y x then 1 else 0

/-- Firing criterion of the edge-density detector. Mirrors
`event_detected = np.sum(edges > 0) > threshold`. -/
def event_detected (width height : Nat) (edges : Nat → Nat → Nat) (threshold : Int) : Bool :=
  decide ((edge_count width height edges : Int) > threshold)

/- ===================== Theorems ===================== -/

/-- C1, counterexample: the claim asserts a strict comparison
(`t = 5` must not fire) "in every detector variant", but the mean-intensity
variants compare with `>=`: with `cooldown_time = 5` and a previous firing at
`t = 0`, the ccm gate fires at exactly `t = 5` (criterion 200 > 128 met). -/
theorem C1_ccm_fires_at_boundary :
    ccm_gate 200 128 5 0 5 = true ∧ ¬ ((5 : ℚ) - 0 > 5) := by
  constructor
  · simp only [ccm_gate, Bool.and_eq_true, decide_eq_true_eq]
    norm_num
  · norm_num

/-- C1, amended: the edge-density variants gate events strictly — with
`cooldown = 5`, a previous firing at `t = 0` and the criterion continuously
met, `evaluate` is `false` for all `t ∈ (0, 5]` (including `t = 5`) and `true`
for any `t > 5`; the mean-intensity variants use `>=` instead, so they fire
exactly when `t ≥ 5` and stay quiet for `t < 5`. -/
theorem C1_cooldown_strict (t : ℚ) :
    (0 < t → t ≤ 5 → edge_gate true true t 0 5 = false) ∧
    (5 < t → edge_gate true true t 0 5 = true) ∧
    (5 ≤ t → ccm_gate 200 128 t 0 5 = true) ∧
    (t < 5 → ccm_gate 200 128 t 0 5 = false) := by
  refine ⟨fun _ h2 => ?_, fun h => ?_, fun h => ?_, fun h => ?_⟩
  · simp only [edge_gate, Bool.true_and, Bool.not_true, Bool.false_or,
      decide_eq_false_iff_not, not_lt]
    linarith
  · simp only [edge_gate, Bool.true_and, Bool.not_true, Bool.false_or,
      decide_eq_true_eq]
    linarith
  · simp only [ccm_gate, Bool.and_eq_true, decide_eq_true_eq]
    constructor
    · norm_num
    · linarith
  · simp only [ccm_gate, Bool.and_eq_false_iff, decide_eq_false_iff_not, not_le]
    right
    linarith

/-- Witness for `C1_cooldown_strict` at the boundary and just after it. -/
theorem C1_cooldown_strict_witness :
    edge_gate true true 5 0 5 = false ∧ edge_gate true true 6 0 5 = true ∧
    ccm_gate 200 128 5 0 5 = true ∧ ccm_gate 200 128 4 0 5 = false :=
  ⟨(C1_cooldown_strict 5).1 (by norm_num) (by norm_num),
   (C1_cooldown_strict 6).2.1 (by norm_num),
   (C1_cooldown_strict 5).2.2.1 (by norm_num),
   (C1_cooldown_strict 4).2.2.2 (by norm_num)⟩

/-- C2: for every frame and every region of interest with `x1 > x2` or
`y1 > y2`, the slice-based masking zeroes the whole edge map, so the
edge-pixel count is 0 and the detector does not fire (threshold is a
non-negative integer in the program: slider minimum 100). The masking
function is total, modelling that no error is raised. -/
theorem C2_invalid_roi_empty (width height x1 y1 x2 y2 : Nat)
    (edges : Nat → Nat → Nat) (threshold : Int)
    (hroi : x2 < x1 ∨ y2 < y1) (hth : 0 ≤ threshold) :
    (∀ y x, mask_edges edges x1 y1 x2 y2 y x = 0) ∧
    edge_count width height (mask_edges edges x1 y1 x2 y2) = 0 ∧
    event_detected width height (mask_edges edges x1 y1 x2 y2) threshold = false := by
  have hz : ∀ y x, mask_edges edges x1 y1 x2 y2 y x = 0 := by
    intro y x
    simp only [mask_edges]
    split
    · rfl
    · split
      · rfl
      · split
        · rfl
        · split
          · rfl
          · exfalso
            rcases hroi with h | h <;> omega
  have hc : edge_count width height (mask_edges edges x1 y1 x2 y2) = 0 := by
    simp [edge_count, hz]
  refine ⟨hz, hc, ?_⟩
  simp only [event_detected, hc, decide_eq_false_iff_not, not_lt]
  exact_mod_cast hth

/-- Witness for `C2_invalid_roi_empty`: a 4×3 all-bright frame with the
inverted region `x1 = 3 > x2 = 1` yields count 0 and no firing. -/
theorem C2_invalid_roi_empty_witness :
    edge_count 4 3 (mask_edges (fun _ _ => 255) 3 0 1 3) = 0 ∧
    event_detected 4 3 (mask_edges (fun _ _ => 255) 3 0 1 3) 0 = false :=
  ⟨(C2_invalid_roi_empty 4 3 3 0 1 3 (fun _ _ => 255) 0 (Or.inl (by norm_num))
      (by norm_num)).2.1,
   (C2_invalid_roi_empty 4 3 3 0 1 3 (fun _ _ => 255) 0 (Or.inl (by norm_num))
      (by norm_num)).2.2⟩

/- ===================== Gaussian blur kernel coercion (C8) ===================== -/

/-- Kernel size actually passed to the blur at usage time. Mirrors
`versions/v3/ccqt.py` line 524:
`gb_val = gaussian_blur if (gaussian_blur % 2 == 1) else (gaussian_blur + 1)`. -/
def gb_val (gaussian_blur : Nat) : Nat :=
  if gaussian_blur % 2 == 1 then gaussian_blur else gaussian_blur + 1

/-- Update-time coercion of the blur slider value. Mirrors
`versions/v3/cc.py` lines 384-387: `gaussian_blur = int(value)` then
`if gaussian_blur % 2 == 0: gaussian_blur += 1`. -/
def update_gaussian_blur (value : Nat) : Nat :=
  if value % 2 == 0 then value + 1 else value

/- ===================== Plot series (C10) ===================== -/

/-- The two parallel lists behind the mean-intensity plot
(`PlotManager.xvals` / `PlotManager.mean_values` in `versions/v3/ccm.py`). -/
structure PlotState where
  xvals : List Nat
  mean_values : List ℚ

/-- Per-frame append. Mirrors `versions/v3/ccm.py` lines 113-118
(`PlotManager.update_data`): `if not self.xvals: self.xvals.append(0)
else: self.xvals.append(self.xvals[-1] + 1)` then
`self.mean_values.append(mean_val)`. -/
def update_data (s : PlotState) (mean_val : ℚ) : PlotState :=
  if s.xvals = [] then
    { xvals := s.xvals ++ [0], mean_values := s.mean_values ++ [mean_val] }
  else
    { xvals := s.xvals ++ [s.xvals.getLastD 0 + 1],
      mean_values := s.mean_values ++ [mean_val] }

/-- Mirrors `versions/v3/ccm.py` lines 163-165 (`PlotManager.clear_plot`):
`self.xvals.clear(); self.mean_values.clear()`. -/
def clear_plot (_ : PlotState) : PlotState :=
  { xvals := [], mean_values := [] }

/-- The operations the UI performs on the plot series. -/
inductive PlotOp where
  | update (mean_val : ℚ)
  | clear

/-- One plot operation applied to the current series state. -/
def plot_step (s : PlotState) (op : PlotOp) : PlotState :=
  match op with
  | .update m => update_data s m
  | .clear => clear_plot s

/-- The series state reached from startup (`xvals = []`, `mean_values = []`)
after an arbitrary sequence of appends and clears. -/
def run_plot (ops : List PlotOp) : PlotState :=
  ops.foldl plot_step { xvals := [], mean_values := [] }

/-- The plot invariant is preserved by each single operation. -/
theorem plot_inv_step (s : PlotState) (op : PlotOp)
    (h : s.xvals = List.range s.mean_values.length) :
    (plot_step s op).xvals = List.range (plot_step s op).mean_values.length := by
  cases op with
  | clear => simp [plot_step, clear_plot]
  | update m =>
    simp only [plot_step, update_data]
    by_cases he : s.xvals = []
    · have hlen : s.mean_values.length = 0 := by
        have h0 := h
        rw [he] at h0
        exact (List.range_eq_nil.mp h0.symm)
      simp [he, hlen, List.range_succ]
    · obtain ⟨n, hn⟩ : ∃ n, s.mean_values.length = n + 1 := by
        cases hml : s.mean_values.length with
        | zero =>
          exfalso
          rw [hml, List.range_zero] at h
          exact he h
        | succ n => exact ⟨n, rfl⟩
      have hx : s.xvals = List.range n ++ [n] := by
        rw [h, hn, List.range_succ]
      have hlast : s.xvals.getLastD 0 = n := by
        rw [hx, List.getLastD_concat]
      rw [if_neg he, hlast, hx]
      simp [hn, List.range_succ]

/-- The plot invariant holds after any operation sequence from an
invariant-respecting start state. -/
theorem plot_fold_inv (ops : List PlotOp) (s : PlotState)
    (h : s.xvals = List.range s.mean_values.length) :
    (ops.foldl plot_step s).xvals =
      List.range (ops.foldl plot_step s).mean_values.length := by
  induction ops generalizing s with
  | nil => exact h
  | cons op rest ih => exact ih _ (plot_inv_step s op h)

/- ===================== Event-marker history (C6) ===================== -/

/-- Recording one event marker. Mirrors `versions/v3/ccm.py` lines 138-158
(`PlotManager.mark_event`): the marker is appended to `event_lines`, then
`if len(self.event_lines) > self.max_event_lines: self.event_lines.pop(0)`
with `max_event_lines = 10`. `event_labels` is maintained identically, so a
single list models both. Markers are identified by their insertion index. -/
def mark_event (event_lines : List Nat) (marker : Nat) : List Nat :=
  let l := event_lines ++ [marker]
  if 10 < l.length then l.drop 1 else l

/-- The marker history reached from the empty history after recording a
sequence of events. -/
def mark_fold (events : List Nat) : List Nat :=
  events.foldl mark_event []

/-- The marker history is exactly the last (at most) 10 recorded events. -/
theorem mark_fold_last (es : List Nat) :
    mark_fold es = es.drop (es.length - 10) := by
  induction es using List.reverseRecOn with
  | nil => rfl
  | append_singleton xs x ih =>
    have hfold : mark_fold (xs ++ [x]) = mark_event (mark_fold xs) x := by
      simp [mark_fold, List.foldl_append]
    rw [hfold, ih]
    simp only [mark_event]
    by_cases h : 10 ≤ xs.length
    · rw [if_pos (by simp [List.length_drop]; omega)]
      rw [List.drop_append_of_le_length (by simp [List.length_drop]; omega)]
      rw [List.drop_drop]
      rw [show (xs ++ [x]).length - 10 = xs.length - 9 by simp]
      rw [List.drop_append_of_le_length (by omega)]
      congr 2
      omega
    · rw [show xs.length - 10 = 0 by omega, List.drop_zero]
      rw [if_neg (by simp; omega)]
      rw [show (xs ++ [x]).length - 10 = 0 by simp; omega, List.drop_zero]

/-- C8: for every blur-kernel slider value `k`, the kernel actually applied is
odd; an even `k` is coerced to `k + 1` and an odd `k` is used as given, in
both the usage-time form (`ccqt.py`) and the update-time form
(`versions/v3/cc.py`), and the two coercions agree. -/
theorem C8_blur_kernel_odd (k : Nat) :
    gb_val k % 2 = 1 ∧ update_gaussian_blur k % 2 = 1 ∧
    gb_val k = update_gaussian_blur k ∧
    (k % 2 = 0 → gb_val k = k + 1) ∧
    (k % 2 = 1 → gb_val k = k) := by
  rcases Nat.mod_two_eq_zero_or_one k with h | h <;>
    (simp [gb_val, update_gaussian_blur, h]; try omega)

/-- Witness for `C8_blur_kernel_odd`: even 4 becomes 5, odd 5 stays 5. -/
theorem C8_blur_kernel_odd_witness :
    gb_val 4 = 4 + 1 ∧ gb_val 5 = 5 :=
  ⟨(C8_blur_kernel_odd 4).2.2.2.1 (by norm_num),
   (C8_blur_kernel_odd 5).2.2.2.2 (by norm_num)⟩

/-- C10: after any sequence of per-frame appends and clears, the x-value list
and the mean-value list have equal length, and the x-values are exactly the
consecutive integers `0, 1, ..., n-1`. -/
theorem C10_plot_series (ops : List PlotOp) :
    (run_plot ops).xvals = List.range (run_plot ops).mean_values.length ∧
    (run_plot ops).xvals.length = (run_plot ops).mean_values.length := by
  have h := plot_fold_inv ops { xvals := [], mean_values := [] } (by simp)
  exact ⟨h, by rw [run_plot] at *; rw [h, List.length_range]⟩

/-- C6: after recording any event sequence, at most 10 markers are retained;
the retained markers are exactly the most recent ones in insertion order
(so strictly increasing insertion indices stay strictly increasing), and
recording an 11th event evicts exactly the earliest-inserted marker. -/
theorem C6_marker_fifo (events : List Nat) :
    (mark_fold events).length ≤ 10 ∧
    mark_fold events = events.drop (events.length - 10) ∧
    (events.length = 11 → mark_fold events = events.tail) ∧
    (events.Pairwise (· < ·) → (mark_fold events).Pairwise (· < ·)) := by
  refine ⟨?_, mark_fold_last events, fun h => ?_, fun h => ?_⟩
  · rw [mark_fold_last]
    simp only [List.length_drop]
    omega
  · rw [mark_fold_last, h, ← List.drop_one]
  · rw [mark_fold_last]
    exact h.sublist (List.drop_sublist _ _)

/-- Witness for `C6_marker_fifo`: eleven markers `0..10` leave `1..10`,
still strictly increasing. -/
theorem C6_marker_fifo_witness :
    mark_fold (List.range 11) = (List.range 11).tail ∧
    (mark_fold (List.range 11)).Pairwise (· < ·) :=
  ⟨(C6_marker_fifo (List.range 11)).2.2.1 (by simp),
   (C6_marker_fifo (List.range 11)).2.2.2 (by decide)⟩

/- ===================== Preset loading, cc_110.py (C3) ===================== -/

/-- The full tunable-parameter set of `cc_110.py`: the ten module-level
globals mutated by `load_preset` and serialized by `save_preset`
(`filename_prefix` is embedded under the name `filename_pfx`). A value of
this type serves both as the live parameter state and as a complete preset
record. -/
structure Params110 where
  threshold : Int
  low_threshold : Int
  high_threshold : Int
  contrast : ℚ
  brightness : Int
  saturation : ℚ
  black_point : Int
  cooldown : Int
  cooldown_enabled : Bool
  filename_pfx : String
deriving DecidableEq

/-- A parsed preset JSON record as seen by `load_preset`: for each expected
key, `none` models a missing key (in Python a read of a missing key raises KeyError
there, aborting the remaining assignments). -/
structure PresetFile110 where
  threshold : Option Int
  low_threshold : Option Int
  high_threshold : Option Int
  contrast : Option ℚ
  brightness : Option Int
  saturation : Option ℚ
  black_point : Option Int
  cooldown : Option Int
  cooldown_enabled : Option Bool
  filename_pfx : Option String
deriving DecidableEq

/-- `load_preset` of `cc_110.py` lines 269-300. The input `file` is `none`
when the preset file does not exist (`FileNotFoundError`, the only caught
exception: the function logs and returns with the state unchanged).
Otherwise the ten globals are assigned one by one in source order; a missing
key raises at that assignment, leaving every earlier assignment in place.
The returned Bool records whether the load ran to completion. -/
def load_preset (s : Params110) (file : Option PresetFile110) : Params110 × Bool :=
  match file with
  | none => (s, false)
  | some p =>
    match p.threshold with
    | none => (s, false)
    | some v1 =>
      let s := { s with threshold := v1 }
      match p.low_threshold with
      | none => (s, false)
      | some v2 =>
        let s := { s with low_threshold := v2 }
        match p.high_threshold with
        | none => (s, false)
        | some v3 =>
          let s := { s with high_threshold := v3 }
          match p.contrast with
          | none => (s, false)
          | some v4 =>
            let s := { s with contrast := v4 }
            match p.brightness with
            | none => (s, false)
            | some v5 =>
              let s := { s with brightness := v5 }
              match p.saturation with
              | none => (s, false)
              | some v6 =>
                let s := { s with saturation := v6 }
                match p.black_point with
                | none => (s, false)
                | some v7 =>
                  let s := { s with black_point := v7 }
                  match p.cooldown with
                  | none => (s, false)
                  | some v8 =>
                    let s := { s with cooldown := v8 }
                    match p.cooldown_enabled with
                    | none => (s, false)
                    | some v9 =>
                      let s := { s with cooldown_enabled := v9 }
                      match p.filename_pfx with
                      | none => (s, false)
                      | some v10 => ({ s with filename_pfx := v10 }, true)

/-- A complete preset record: every key present. -/
def toFile (q : Params110) : PresetFile110 :=
  ⟨some q.threshold, some q.low_threshold, some q.high_threshold, some q.contrast,
   some q.brightness, some q.saturation, some q.black_point, some q.cooldown,
   some q.cooldown_enabled, some q.filename_pfx⟩

/-- Initial live state of `cc_110.py` (module-level defaults). -/
def state0 : Params110 := ⟨1000, 50, 150, 1, 0, 1, 0, 5, true, "event"⟩

/-- A parsed record carrying only the first key. -/
def file_missing_low : PresetFile110 :=
  ⟨some 42, none, none, none, none, none, none, none, none, none⟩

/-- C3, counterexample: a record that parses but lacks `low_threshold` makes
the load fail, yet `threshold` has already been overwritten — the live state
is partially populated by a failed load, contradicting the claim. -/
theorem C3_incomplete_load_counterexample :
    (load_preset state0 (some file_missing_low)).2 = false ∧
    (load_preset state0 (some file_missing_low)).1.threshold = 42 ∧
    state0.threshold = 1000 ∧
    (load_preset state0 (some file_missing_low)).1 ≠ state0 := by
  refine ⟨rfl, rfl, rfl, ?_⟩
  intro h
  have h2 := congrArg Params110.threshold h
  rw [show (load_preset state0 (some file_missing_low)).1.threshold = 42 from rfl,
      show state0.threshold = 1000 from rfl] at h2
  exact absurd h2 (by decide)

/-- C3, amended: only a missing preset file (and a record whose very first
key is already absent) leaves the live state entirely unchanged; a complete
record atomically replaces all ten fields; but a record missing a later key
aborts mid-sequence, updating the fields read before it — here shown for a
missing `cooldown` key: `cooldown`, `cooldown_enabled` and the filename
prefix keep their old values while earlier fields may already be replaced. -/
theorem C3_load_abort_behaviour (s : Params110) (p : PresetFile110) (q : Params110) :
    load_preset s none = (s, false) ∧
    (p.threshold = none → load_preset s (some p) = (s, false)) ∧
    load_preset s (some (toFile q)) = (q, true) ∧
    (p.cooldown = none →
      (load_preset s (some p)).1.cooldown = s.cooldown ∧
      (load_preset s (some p)).1.cooldown_enabled = s.cooldown_enabled ∧
      (load_preset s (some p)).1.filename_pfx = s.filename_pfx) := by
  refine ⟨rfl, fun h => ?_, rfl, fun h => ?_⟩
  · simp [load_preset, h]
  · obtain ⟨f1, f2, f3, f4, f5, f6, f7, f8, f9, f10⟩ := p
    have h8 : f8 = none := h
    subst h8
    cases f1 <;> cases f2 <;> cases f3 <;> cases f4 <;> cases f5 <;> cases f6 <;>
      cases f7 <;> simp [load_preset]

/-- Witness for `C3_load_abort_behaviour` at concrete inputs. -/
theorem C3_load_abort_behaviour_witness :
    load_preset state0 (some ⟨none, none, none, none, none, none, none, none, none, none⟩)
      = (state0, false) ∧
    (load_preset state0 (some file_missing_low)).1.cooldown = state0.cooldown :=
  ⟨(C3_load_abort_behaviour state0
      ⟨none, none, none, none, none, none, none, none, none, none⟩ state0).2.1 rfl,
   ((C3_load_abort_behaviour state0 file_missing_low state0).2.2.2 rfl).1⟩

/- ===================== Preset persistence, ccqt (C4) ===================== -/

/-- JSON scalar/array values as written by `json.dump` and read back by
`json.load`: Python ints and floats stay distinct types across the trip. -/
inductive Json where
  | jint (n : Int)
  | jnum (q : ℚ)
  | jbool (b : Bool)
  | jstr (s : String)
  | jarr (elems : List Json)

/-- The preset record of `versions/v3/ccqt.py` (`save_preset` lines 768-781):
the ten `cc_110` fields plus `detection_area` (list of ints) and
`gaussian_blur`. Contrast and saturation are floating point, the rest of the
numeric fields are integers. -/
structure PresetQt where
  threshold : Int
  low_threshold : Int
  high_threshold : Int
  contrast : ℚ
  brightness : Int
  saturation : ℚ
  black_point : Int
  cooldown : Int
  cooldown_enabled : Bool
  filename_pfx : String
  detection_area : List Int
  gaussian_blur : Int
deriving DecidableEq

/-- `json.dump` of the `preset_dict` built in `ccqt.save_preset`: a flat
record of key/value pairs in source order. -/
def encodePreset (p : PresetQt) : List (String × Json) :=
  [("threshold", .jint p.threshold),
   ("low_threshold", .jint p.low_threshold),
   ("high_threshold", .jint p.high_threshold),
   ("contrast", .jnum p.contrast),
   ("brightness", .jint p.brightness),
   ("saturation", .jnum p.saturation),
   ("black_point", .jint p.black_point),
   ("cooldown", .jint p.cooldown),
   ("cooldown_enabled", .jbool p.cooldown_enabled),
   ("filename_prefix", .jstr p.filename_pfx),
   ("detection_area", .jarr (p.detection_area.map .jint)),
   ("gaussian_blur", .jint p.gaussian_blur)]

/-- Integer read from a JSON record field. -/
def asInt : Option Json → Option Int
  | some (.jint n) => some n
  | _ => none

/-- Float read from a JSON record field. -/
def asNum : Option Json → Option ℚ
  | some (.jnum q) => some q
  | _ => none

/-- Boolean read from a JSON record field. -/
def asBool : Option Json → Option Bool
  | some (.jbool b) => some b
  | _ => none

/-- String read from a JSON record field. -/
def asStr : Option Json → Option String
  | some (.jstr s) => some s
  | _ => none

/-- All-integer JSON array decoded to a list of ints. -/
def decodeInts : List Json → Option (List Int)
  | [] => some []
  | .jint n :: rest => (decodeInts rest).map (n :: ·)
  | _ => none

/-- Integer-list read from a JSON record field. -/
def asIntList : Option Json → Option (List Int)
  | some (.jarr l) => decodeInts l
  | _ => none

/-- `json.load` followed by the field reads of `ccqt.load_preset`
(lines 814-827): every key of the saved record is read back with its value;
`decodePreset` is `none` when a key is absent or of the wrong shape. -/
def decodePreset (record : List (String × Json)) : Option PresetQt := do
  let t ← asInt (record.lookup "threshold")
  let lo ← asInt (record.lookup "low_threshold")
  let hi ← asInt (record.lookup "high_threshold")
  let c ← asNum (record.lookup "contrast")
  let b ← asInt (record.lookup "brightness")
  let sa ← asNum (record.lookup "saturation")
  let bp ← asInt (record.lookup "black_point")
  let cd ← asInt (record.lookup "cooldown")
  let ce ← asBool (record.lookup "cooldown_enabled")
  let fp ← asStr (record.lookup "filename_prefix")
  let da ← asIntList (record.lookup "detection_area")
  let gb ← asInt (record.lookup "gaussian_blur")
  pure ⟨t, lo, hi, c, b, sa, bp, cd, ce, fp, da, gb⟩

/-- Decoding inverts encoding on integer arrays. -/
theorem decodeInts_map (l : List Int) : decodeInts (l.map Json.jint) = some l := by
  induction l with
  | nil => rfl
  | cons a t ih => simp [decodeInts, ih]

/-- Field-for-field round trip of the serialized record, preserving the
int/float distinction by construction of `Json`. -/
theorem decode_encode (p : PresetQt) : decodePreset (encodePreset p) = some p := by
  obtain ⟨t, lo, hi, c, b, sa, bp, cd, ce, fp, da, gb⟩ := p
  simp [decodePreset, encodePreset, List.lookup, asInt, asNum, asBool, asStr,
    asIntList, decodeInts_map]

/-- Writing the preset file `{name}.json` (`ccqt.save_preset` line 794-795),
as a map from preset name to serialized record. -/
def save_preset_qt (files : String → Option (List (String × Json)))
    (preset_name : String) (p : PresetQt) : String → Option (List (String × Json)) :=
  fun name => if name = preset_name then some (encodePreset p) else files name

/-- Reading and parsing the preset file `{name}.json`
(`ccqt.load_preset` lines 813-827). -/
def load_preset_qt (files : String → Option (List (String × Json)))
    (preset_name : String) : Option PresetQt :=
  (files preset_name).bind decodePreset

/-- C4: preset persistence round-trips exactly — for every preset value and
name, loading immediately after saving reproduces every field with its
original value and numeric type (contrast/saturation stay `jnum` floats,
the other numeric fields stay `jint` integers, as `Json` keeps them apart). -/
theorem C4_preset_roundtrip (files : String → Option (List (String × Json)))
    (preset_name : String) (p : PresetQt) :
    load_preset_qt (save_preset_qt files preset_name p) preset_name = some p := by
  simp [load_preset_qt, save_preset_qt, decode_encode]

/- ===================== Preset saving and overwrite (C5) ===================== -/

/-- `save_preset` of `cc_110.py` lines 251-267: the current settings are
written to `{preset_name}.json` unconditionally — there is no check whether
a record of that name already exists. -/
def cc110_save (files : String → Option Params110) (preset_name : String)
    (preset : Params110) : String → Option Params110 :=
  fun name => if name = preset_name then some preset else files name

/-- The preset store of `versions/v3/ccqt.py`: the preset files plus the
`available_presets` list the overwrite check consults (kept in sync by
`save_preset`, which appends each newly created name). -/
structure QtStore where
  files : String → Option PresetQt
  available_presets : List String

/-- `save_preset` of `versions/v3/ccqt.py` lines 762-800: if the name is in
`available_presets`, a Confirm-Overwrite question is shown and a `No` answer
returns without writing; otherwise the record is written and a genuinely new
name is appended to `available_presets`. `user_confirms` is the dialog
answer (irrelevant when no dialog is shown). -/
def ccqt_save_preset (st : QtStore) (current_preset : String) (p : PresetQt)
    (user_confirms : Bool) : QtStore :=
  if current_preset ∈ st.available_presets ∧ ¬ user_confirms then st
  else
    { files := fun name => if name = current_preset then some p else st.files name,
      available_presets :=
        if current_preset ∈ st.available_presets then st.available_presets
        else st.available_presets ++ [current_preset] }

/-- Two distinct presets and a store already holding one of them under
`"default"`, for the C5 counterexample. -/
def preset_a : Params110 := ⟨1000, 50, 150, 1, 0, 1, 0, 5, true, "event"⟩

/-- A preset differing from `preset_a` in its threshold. -/
def preset_b : Params110 := ⟨2000, 50, 150, 1, 0, 1, 0, 5, true, "event"⟩

/-- A file store with exactly one record, named `"default"`. -/
def files_one : String → Option Params110 :=
  fun name => if name = "default" then some preset_a else none

/-- C5, counterexample: in `cc_110.py` a record named `"default"` already
exists, yet saving under that name silently replaces it — no overwrite
condition is signalled and no confirmation exists in that code path. -/
theorem C5_silent_overwrite_counterexample :
    files_one "default" = some preset_a ∧
    cc110_save files_one "default" preset_b "default" = some preset_b ∧
    preset_b ≠ preset_a := by
  refine ⟨rfl, rfl, ?_⟩
  intro h
  have h2 := congrArg Params110.threshold h
  rw [show preset_b.threshold = 2000 from rfl, show preset_a.threshold = 1000 from rfl] at h2
  exact absurd h2 (by decide)

/-- C5, amended: the Qt variant asks before overwriting — with an existing
name a `No` answer leaves the store unchanged and only a `Yes` answer
replaces the record, while a new name is written without a prompt and
appended to the known-preset list; the `cc_110.py` variant has no such check
and silently overwrites. -/
theorem C5_overwrite_confirmation (st : QtStore) (current_preset : String) (p : PresetQt) :
    (current_preset ∈ st.available_presets →
      ccqt_save_preset st current_preset p false = st) ∧
    (current_preset ∈ st.available_presets →
      (ccqt_save_preset st current_preset p true).files current_preset = some p) ∧
    (current_preset ∉ st.available_presets → ∀ confirm,
      (ccqt_save_preset st current_preset p confirm).files current_preset = some p ∧
      (ccqt_save_preset st current_preset p confirm).available_presets
        = st.available_presets ++ [current_preset]) := by
  refine ⟨fun h => ?_, fun h => ?_, fun h confirm => ?_⟩
  · simp [ccqt_save_preset, h]
  · simp [ccqt_save_preset, h]
  · simp [ccqt_save_preset, h]

/-- A Qt preset value for the C5 witness. -/
def preset_qt_a : PresetQt :=
  ⟨1000, 50, 150, 1, 0, 1, 0, 5, true, "event", [0, 0, 640, 480], 5⟩

/-- A Qt store already holding `"default"`. -/
def qt_store0 : QtStore :=
  ⟨fun name => if name = "default" then some preset_qt_a else none, ["default"]⟩

/-- Witness for `C5_overwrite_confirmation` at concrete store contents. -/
theorem C5_overwrite_confirmation_witness :
    ccqt_save_preset qt_store0 "default" preset_qt_a false = qt_store0 ∧
    (ccqt_save_preset qt_store0 "default" preset_qt_a true).files "default"
      = some preset_qt_a ∧
    (ccqt_save_preset qt_store0 "new" preset_qt_a true).available_presets
      = ["default", "new"] :=
  ⟨(C5_overwrite_confirmation qt_store0 "default" preset_qt_a).1 (by simp [qt_store0]),
   (C5_overwrite_confirmation qt_store0 "default" preset_qt_a).2.1 (by simp [qt_store0]),
   ((C5_overwrite_confirmation qt_store0 "new" preset_qt_a).2.2
      (by simp [qt_store0]) true).2⟩

/- ===================== Conditioning stage (C7) ===================== -/

/-- A uint8 colour pixel (three channels). -/
abbrev Pixel := Fin 256 × Fin 256 × Fin 256

/-- A frame: rows of pixels. -/
abbrev Frame := List (List Pixel)

/-- `np.clip(x, 0, 255).astype(np.uint8)` on one scalar: clamp to `[0, 255]`
then truncate (the clamped value is non-negative, so truncation is floor). -/
def clip255 (x : ℚ) : Fin 256 :=
  ⟨(Int.floor (max 0 (min 255 x))).toNat, by
    have h1 : max 0 (min 255 x) ≤ (255 : ℚ) := max_le (by norm_num) (min_le_left _ _)
    have h2 : Int.floor (max 0 (min 255 x)) ≤ (255 : ℤ) := by
      have := Int.floor_le_floor h1
      simpa using this
    omega⟩

/-- Clamping is the identity on a value already in `0..255`. -/
theorem clip255_cast (i : Fin 256) : clip255 ((i : Nat) : ℚ) = i := by
  have hle : ((i : Nat) : ℚ) ≤ 255 := by
    exact_mod_cast Nat.lt_succ_iff.mp i.isLt
  have h0 : (0 : ℚ) ≤ ((i : Nat) : ℚ) := by positivity
  apply Fin.ext
  simp [clip255, min_eq_right hle, max_eq_right h0, Int.floor_natCast]

/-- One LUT entry of `ccqt.apply_video_controls` (lines 551-564):
`table = scale * (table + shift)` with `shift = brightness - black_point`,
then `np.clip(table, 0, 255).astype(np.uint8)`. -/
def lut_entry (contrast : ℚ) (brightness black_point : Int) (i : Fin 256) : Fin 256 :=
  clip255 (contrast * (((i : Nat) : ℚ) + ((brightness - black_point : Int) : ℚ)))

/-- A per-channel function applied to all three channels of a pixel. -/
def map_pixel (f : Fin 256 → Fin 256) (px : Pixel) : Pixel :=
  (f px.1, f px.2.1, f px.2.2)

/-- A per-channel function applied to every pixel of a frame (the effect of
`cv2.LUT` and of elementwise numpy arithmetic). -/
def map_frame (f : Fin 256 → Fin 256) (fr : Frame) : Frame :=
  fr.map (List.map (map_pixel f))

/-- A channelwise identity maps every frame to itself. -/
theorem map_frame_id (f : Fin 256 → Fin 256) (hf : ∀ i, f i = i) (fr : Frame) :
    map_frame f fr = fr := by
  have hfun : map_pixel f = id := funext fun px => by simp [map_pixel, hf]
  simp [map_frame, hfun]

/-- `apply_video_controls` of `versions/v3/ccqt.py` (lines 544-576): the LUT
over every channel, then — only when `saturation != 1.0` — the HSV
saturation scaling. The HSV conversion and scaling are external cv2 code
(not part of this repository) and are passed in as `sat_adjust`. -/
def ccqt_apply_video_controls (sat_adjust : ℚ → Frame → Frame)
    (contrast : ℚ) (brightness black_point : Int) (saturation : ℚ)
    (frame : Frame) : Frame :=
  let lutted := map_frame (lut_entry contrast brightness black_point) frame
  if saturation ≠ 1 then sat_adjust saturation lutted else lutted

/-- The conditioning prefix of `versions/v3/ccm.py` `handle_new_frame`
(lines 430-444): the LUT is applied only when brightness, black point or
contrast is not at its default, and the HSV saturation scaling only when
`saturation != 1.0`. -/
def ccm_condition (sat_adjust : ℚ → Frame → Frame)
    (contrast : ℚ) (brightness black_point : Int) (saturation : ℚ)
    (frame : Frame) : Frame :=
  let f1 := if brightness ≠ 0 ∨ black_point ≠ 0 ∨ contrast ≠ 1 then
      map_frame (lut_entry contrast brightness black_point) frame
    else frame
  if saturation ≠ 1 then sat_adjust saturation f1 else f1

/-- One channel of `cv2.convertScaleAbs(frame, alpha, beta)`:
`|alpha * v + beta|` rounded and saturated to uint8. cv2 rounds half to
even; the Mathlib `round` differs from it only on exact half-integers, which
do not arise at the parameter values used in the theorems below. -/
def convert_scale_abs (alpha : ℚ) (beta : Int) (v : Fin 256) : Fin 256 :=
  ⟨(min 255 (round |alpha * ((v : Nat) : ℚ) + (beta : ℚ)|)).toNat, by
    have h : min 255 (round |alpha * ((v : Nat) : ℚ) + (beta : ℚ)|) ≤ (255 : ℤ) :=
      min_le_left _ _
    omega⟩

/-- `convertScaleAbs` with `alpha = 1, beta = 0` is the identity channelwise. -/
theorem convert_scale_abs_id (v : Fin 256) : convert_scale_abs 1 0 v = v := by
  apply Fin.ext
  simp only [convert_scale_abs]
  rw [show (1 : ℚ) * ((v : Nat) : ℚ) + ((0 : Int) : ℚ) = ((v : Nat) : ℚ) by push_cast; ring]
  rw [abs_of_nonneg (by positivity), round_natCast]
  rw [min_eq_right (by exact_mod_cast Nat.lt_succ_iff.mp v.isLt)]
  simp

/-- The saturation-channel update of `cc_110.apply_video_controls` line 111:
`hsv[..., 1] = np.clip(hsv[..., 1] * saturation, 0, 255)` (the float result
is written back into the uint8 array). -/
def sat_pixel (saturation : ℚ) (px : Pixel) : Pixel :=
  (px.1, clip255 (((px.2.1 : Nat) : ℚ) * saturation), px.2.2)

/-- The saturation scaling applied to a whole HSV frame. -/
def scale_saturation (saturation : ℚ) (hsv : Frame) : Frame :=
  hsv.map (List.map (sat_pixel saturation))

/-- Scaling the saturation channel by 1 changes nothing. -/
theorem scale_saturation_one (hsv : Frame) : scale_saturation 1 hsv = hsv := by
  have hfun : sat_pixel 1 = id := funext fun px => by simp [sat_pixel, mul_one, clip255_cast]
  simp [scale_saturation, hfun]

/-- One channel of `np.clip(frame + black_point, 0, 255).astype(np.uint8)`
(`cc_110.apply_video_controls` line 113), with the addition taken at full
integer precision. -/
def add_black_point (black_point : Int) (v : Fin 256) : Fin 256 :=
  clip255 (((v : Nat) : ℚ) + (black_point : ℚ))

/-- Adding a zero black point is the identity channelwise. -/
theorem add_black_point_id (v : Fin 256) : add_black_point 0 v = v := by
  simp only [add_black_point]
  rw [show ((v : Nat) : ℚ) + ((0 : Int) : ℚ) = ((v : Nat) : ℚ) by push_cast; ring]
  exact clip255_cast v

/-- `apply_video_controls` of `cc_110.py` (lines 107-114):
`convertScaleAbs`, then the BGR→HSV conversion, saturation scaling, HSV→BGR
conversion (both conversions are external cv2 code, passed in as `to_hsv` /
`from_hsv`), then the black-point shift. This variant performs the HSV
round trip unconditionally, even at `saturation == 1.0`. -/
def cc110_apply_video_controls (to_hsv from_hsv : Frame → Frame)
    (contrast : ℚ) (brightness : Int) (saturation : ℚ) (black_point : Int)
    (frame : Frame) : Frame :=
  let f1 := map_frame (convert_scale_abs contrast brightness) frame
  let f2 := from_hsv (scale_saturation saturation (to_hsv f1))
  map_frame (add_black_point black_point) f2

/-- C7: with identity conditioning parameters (contrast 1, brightness 0,
black point 0, saturation 1) the conditioning stage returns the frame
unchanged, pixel for pixel: unconditionally in the ccqt and ccm variants
(whatever the cv2 saturation routine does, it is never invoked), and in the
cc_110 variant provided the cv2 uint8 HSV round trip it always executes is
lossless on the pixels of the frame. -/
theorem C7_identity_conditioning (sat_adjust : ℚ → Frame → Frame)
    (to_hsv from_hsv : Frame → Frame) (frame : Frame)
    (hround : ∀ fr : Frame, from_hsv (to_hsv fr) = fr) :
    ccqt_apply_video_controls sat_adjust 1 0 0 1 frame = frame ∧
    ccm_condition sat_adjust 1 0 0 1 frame = frame ∧
    cc110_apply_video_controls to_hsv from_hsv 1 0 1 0 frame = frame := by
  have hlut : ∀ i : Fin 256, lut_entry 1 0 0 i = i := by
    intro i
    simp only [lut_entry]
    rw [show (1 : ℚ) * (((i : Nat) : ℚ) + ((0 - 0 : Int) : ℚ)) = ((i : Nat) : ℚ) by
      push_cast; ring]
    exact clip255_cast i
  refine ⟨?_, ?_, ?_⟩
  · simp [ccqt_apply_video_controls, map_frame_id _ hlut]
  · simp [ccm_condition]
  · simp only [cc110_apply_video_controls]
    rw [map_frame_id _ convert_scale_abs_id, scale_saturation_one, hround,
      map_frame_id _ add_black_point_id]

/-- Witness for `C7_identity_conditioning` with the identity conversions
(trivially lossless) on a small concrete frame. -/
theorem C7_identity_conditioning_witness :
    ccqt_apply_video_controls (fun _ fr => fr) 1 0 0 1
        [[((5 : Fin 256), (7 : Fin 256), (9 : Fin 256))]]
      = [[((5 : Fin 256), (7 : Fin 256), (9 : Fin 256))]] ∧
    cc110_apply_video_controls (fun fr => fr) (fun fr => fr) 1 0 1 0
        [[((5 : Fin 256), (7 : Fin 256), (9 : Fin 256))]]
      = [[((5 : Fin 256), (7 : Fin 256), (9 : Fin 256))]] :=
  ⟨(C7_identity_conditioning (fun _ fr => fr) (fun fr => fr) (fun fr => fr)
      [[((5 : Fin 256), (7 : Fin 256), (9 : Fin 256))]] (fun _ => rfl)).1,
   (C7_identity_conditioning (fun _ fr => fr) (fun fr => fr) (fun fr => fr)
      [[((5 : Fin 256), (7 : Fin 256), (9 : Fin 256))]] (fun _ => rfl)).2.2⟩

/- ===================== Event handling and image saving (C9) ===================== -/

/-- Outcome of one `handle_event` call: what `cv2.imwrite` persisted (when
saving is enabled) and the frame handed onward for display. -/
structure EventResult where
  saved : Option (String × Frame)
  displayed : Frame

/-- `handle_event` of `cc.py` lines 98-106 / `ccqt.py` lines 578-588: when
saving is enabled the frame is written to `{prefix}_{int(time.time())}.jpg`
FIRST, and only afterwards does `cv2.putText(frame, "EVENT DETECTED!", ...)`
draw the marker onto the (displayed) frame. `put_text` is the external cv2
text-drawing routine. -/
def handle_event (put_text : Frame → Frame) (save_events : Bool)
    (pfx : String) (unix_time : Nat) (frame : Frame) : EventResult :=
  { saved :=
      if save_events then some (pfx ++ "_" ++ toString unix_time ++ ".jpg", frame)
      else none,
    displayed := put_text frame }

/-- The per-frame event tail of `ccqt.update_feed`: the frame passed to
`handle_event` is the conditioned frame produced by `apply_video_controls`. -/
def ccqt_feed_event (sat_adjust : ℚ → Frame → Frame) (put_text : Frame → Frame)
    (contrast : ℚ) (brightness black_point : Int) (saturation : ℚ)
    (save_events : Bool) (pfx : String) (unix_time : Nat) (raw : Frame) : EventResult :=
  handle_event put_text save_events pfx unix_time
    (ccqt_apply_video_controls sat_adjust contrast brightness black_point saturation raw)

/-- An all-black 1×1 frame. -/
def frame_black : Frame := [[((0 : Fin 256), (0 : Fin 256), (0 : Fin 256))]]

/-- A stand-in for `cv2.putText` that visibly alters the frame (the real
routine draws red text over the image, changing pixels). -/
def put_text_red : Frame → Frame :=
  fun fr => map_frame (fun _ => (255 : Fin 256)) fr

/-- C9, counterexample: with saving enabled, the persisted content is the
frame as it was BEFORE the "EVENT DETECTED" text is drawn — the annotation
only reaches the displayed frame, so whenever the text drawing changes any
pixel the saved image differs from the annotated frame, contradicting the
claim that the saved content includes the annotation. -/
theorem C9_saved_image_unmarked_counterexample :
    (handle_event put_text_red true "event" 1700 frame_black).saved
      = some ("event_1700.jpg", frame_black) ∧
    (handle_event put_text_red true "event" 1700 frame_black).displayed
      = put_text_red frame_black ∧
    put_text_red frame_black ≠ frame_black := by
  refine ⟨rfl, rfl, ?_⟩
  decide

/-- C9, amended: when an event fires with image saving enabled, the persisted
file is named `{prefix}_{unix_timestamp}.jpg` and its content is the
conditioned frame WITHOUT the on-image "EVENT DETECTED" marker (the marker
is drawn after the write, onto the displayed frame only); with saving
disabled nothing is persisted. -/
theorem C9_event_image (sat_adjust : ℚ → Frame → Frame) (put_text : Frame → Frame)
    (contrast : ℚ) (brightness black_point : Int) (saturation : ℚ)
    (save_events : Bool) (pfx : String) (unix_time : Nat) (raw frame : Frame) :
    (save_events = true →
      (handle_event put_text save_events pfx unix_time frame).saved
        = some (pfx ++ "_" ++ toString unix_time ++ ".jpg", frame)) ∧
    (save_events = false →
      (handle_event put_text save_events pfx unix_time frame).saved = none) ∧
    (handle_event put_text save_events pfx unix_time frame).displayed
      = put_text frame ∧
    (save_events = true →
      (ccqt_feed_event sat_adjust put_text contrast brightness black_point saturation
          save_events pfx unix_time raw).saved
        = some (pfx ++ "_" ++ toString unix_time ++ ".jpg",
            ccqt_apply_video_controls sat_adjust contrast brightness black_point
              saturation raw)) := by
  refine ⟨fun h => ?_, fun h => ?_, rfl, fun h => ?_⟩
  · simp [handle_event, h]
  · simp [handle_event, h]
  · simp [ccqt_feed_event, handle_event, h]

/-- Witness for `C9_event_image` at concrete inputs. -/
theorem C9_event_image_witness :
    (handle_event put_text_red true "event" 1700 frame_black).saved
      = some ("event" ++ "_" ++ toString 1700 ++ ".jpg", frame_black) ∧
    (handle_event put_text_red false "event" 1700 frame_black).saved = none :=
  ⟨(C9_event_image (fun _ fr => fr) put_text_red 1 0 0 1 true "event" 1700
      frame_black frame_black).1 rfl,
   (C9_event_image (fun _ fr => fr) put_text_red 1 0 0 1 false "event" 1700
      frame_black frame_black).2.1 rfl⟩

end FocusCC
